import Mathlib

/-!
Verification of the worker-orchestration substrate of the CustomScraper
repository: a shallow embedding, in Lean, of the account pool
(`scraping/reddit/session_pool.py`), the account health manager
(`scripts/account_pool_manager.py`), the orchestrator worker loop
(`scraping/reddit/worker_orchestrator.py`), the token-bucket rate limiter
(`scraping/reddit/rate_limiter.py`), the worker checkpoint store
(`scraping/reddit/worker_checkpoint_store.py`) and the JSON job queue
(`scraping/reddit/job_queue.py`), together with theorems settling the
specification claims about them.

Modelling conventions: SQLite REAL columns and Python floats are modelled
as rationals; SQLite tables are modelled as finite maps (functions into
`Option`); Python substring tests (`x in s`) are modelled by an explicit
substring scan over character lists; `str.lower()` is modelled as a
character-wise `Char.toLower` (all message literals involved are ASCII).
-/

/-! ## Substring matching (Python `needle in haystack`) -/

/-- `leadMatch nd hay` holds when `nd` is an initial segment of `hay`. -/
def leadMatch : List Char → List Char → Bool
  | [], _ => true
  | _ :: _, [] => false
  | a :: as, b :: bs => a == b && leadMatch as bs

/-- `subMatch nd hay` holds when `nd` occurs contiguously inside `hay`;
this is Python's `nd in hay` for strings. -/
def subMatch (nd : List Char) : List Char → Bool
  | [] => leadMatch nd []
  | b :: t => leadMatch nd (b :: t) || subMatch nd t

/-- String-level substring containment, Python `nd in hay`. -/
def strContains (hay nd : String) : Bool :=
  subMatch nd.toList hay.toList

/-- Character-wise lower casing, Python `s.lower()` on ASCII text. -/
def lowerStr (s : String) : String :=
  String.mk (s.toList.map Char.toLower)

theorem leadMatch_map (f : Char → Char) (nd : List Char) :
    ∀ hay : List Char, leadMatch nd hay = true →
      leadMatch (nd.map f) (hay.map f) = true := by
  induction nd with
  | nil => intro hay _; simp [leadMatch]
  | cons a as ih =>
    intro hay h
    cases hay with
    | nil => simp [leadMatch] at h
    | cons b bs =>
      simp only [leadMatch, Bool.and_eq_true, beq_iff_eq] at h
      simp only [List.map_cons, leadMatch, Bool.and_eq_true, beq_iff_eq]
      exact ⟨by rw [h.1], ih bs h.2⟩

theorem subMatch_map (f : Char → Char) (nd : List Char) :
    ∀ hay : List Char, subMatch nd hay = true →
      subMatch (nd.map f) (hay.map f) = true := by
  intro hay
  induction hay with
  | nil =>
    intro h
    simp only [subMatch] at h ⊢
    exact leadMatch_map f nd [] h
  | cons b bs ih =>
    intro h
    simp only [subMatch, Bool.or_eq_true] at h ⊢
    cases h with
    | inl h => exact Or.inl (leadMatch_map f nd (b :: bs) h)
    | inr h => exact Or.inr (ih h)

theorem strContains_lower (hay nd : String) (h : strContains hay nd = true) :
    strContains (lowerStr hay) (lowerStr nd) = true := by
  simpa [strContains, lowerStr] using
    subMatch_map Char.toLower nd.toList hay.toList h

/-! ## Error classification

`_looks_rate_limited` / `_looks_auth_ban` from `worker_orchestrator.py`
(lines 195-201) and the `except` classification of `_health_probe` from
`account_pool_manager.py` (lines 242-249). -/

inductive ErrClass
  | rateLimit
  | auth
  | network
deriving DecidableEq

/-- Source `_looks_rate_limited` (worker_orchestrator.py line 195). -/
def looks_rate_limited (msg : String) : Bool :=
  let s := lowerStr msg
  strContains s "too many requests" || strContains s "ratelimit" || strContains s "429"

/-- Source `_looks_auth_ban` (worker_orchestrator.py line 199). -/
def looks_auth_ban (msg : String) : Bool :=
  let s := lowerStr msg
  strContains s "unauthorized" || strContains s "forbidden" ||
    strContains s "403" || strContains s "401" || strContains s "invalid_grant"

/-- The orchestrator worker's error classifier: the dispatch order of the
`except` branch of `worker_task` (worker_orchestrator.py lines 314-321). -/
def workerClassify (msg : String) : ErrClass :=
  if looks_rate_limited msg then .rateLimit
  else if looks_auth_ban msg then .auth
  else .network

/-- The health manager's probe classifier: the `except` branch of
`_health_probe` (account_pool_manager.py lines 242-249); note the
case-sensitive substring tests on the original message. -/
def probeClassify (msg : String) : ErrClass :=
  if strContains msg "Too Many Requests" || strContains msg "RATELIMIT" ||
      strContains msg "429" then .rateLimit
  else if strContains msg "401" || strContains msg "403" ||
      strContains msg "invalid_grant" || strContains msg "Forbidden" ||
      strContains msg "Unauthorized" then .auth
  else .network

/-- Modelled from the spec words of the claim (refinement side): classify a
message as rate-limit iff it matches /too many requests|ratelimit|429/i,
as auth iff (otherwise) it matches /unauthorized|forbidden|401|403|
invalid_grant/i, else network; a case-insensitive match of a lowercase
literal is containment in the lowercased subject. -/
def specClassifyCI (msg : String) : ErrClass :=
  let s := lowerStr msg
  if strContains s "too many requests" || strContains s "ratelimit" ||
      strContains s "429" then .rateLimit
  else if strContains s "unauthorized" || strContains s "forbidden" ||
      strContains s "401" || strContains s "403" ||
      strContains s "invalid_grant" then .auth
  else .network

/-! ## Account pool (`session_pool.py`) -/

namespace Pool

/-- The mutable per-account columns of the `accounts` table that the
lease/release/cooldown/quarantine transitions touch
(session_pool.py lines 163-176). -/
structure AccountRow where
  status : String
  cooldown_until : ℚ
  fail_count : ℕ
  last_error : Option String
deriving DecidableEq

/-- `AccountPool.cooldown_seconds` default (session_pool.py line 141). -/
def cooldown_seconds : ℕ := 60

/-- `AccountPool.release` (session_pool.py lines 311-328): unconditional
`UPDATE ... WHERE account_id=?` on the leased account's row.  SQLite's
`MAX(fail_count-1, 0)` on a non-negative count is truncated subtraction. -/
def release (success : Bool) (now : ℚ) (r : AccountRow) : AccountRow :=
  if success then
    { r with status := "ready",
             cooldown_until := now + (max 0 (cooldown_seconds / 4) : ℕ),
             fail_count := r.fail_count - 1 }
  else
    { r with status := "ready",
             cooldown_until := now + (cooldown_seconds : ℕ),
             fail_count := r.fail_count + 1 }

/-- `AccountPool.cooldown` (session_pool.py lines 330-341). -/
def cooldown (seconds : ℚ) (reason : Option String) (now : ℚ) (r : AccountRow) :
    AccountRow :=
  { r with status := "ready", cooldown_until := now + seconds, last_error := reason }

/-- `AccountPool.quarantine` (session_pool.py lines 343-352). -/
def quarantine (reason : String) (r : AccountRow) : AccountRow :=
  { r with status := "quarantine", last_error := some reason }

/-- The `except` branch of `worker_task` (worker_orchestrator.py lines
308-323): classify the message, apply cooldown or quarantine, and then in
every branch call `lease.release(success=False)`.  `t1` is the time of the
cooldown write, `t2` the time of the release write. -/
def worker_on_error (msg : String) (t1 t2 : ℚ) (r : AccountRow) : AccountRow :=
  if looks_rate_limited msg then release false t2 (cooldown 120 (some "rate-limit") t1 r)
  else if looks_auth_ban msg then release false t2 (quarantine "auth" r)
  else release false t2 r

end Pool

/-! ## Health manager writes and the lease flip (`account_pool_manager.py`,
`session_pool.py`) -/

/-- The `accounts` table keyed by `account_id`. -/
def AccountsTbl : Type := String → Option Pool.AccountRow

namespace Mgr

/-- `_update_on_success` (account_pool_manager.py lines 119-134):
`UPDATE accounts SET status=..., ... WHERE account_id=?` — keyed by
account id only, no status guard. -/
def update_on_success (now : ℚ) (aid : String) (db : AccountsTbl) : AccountsTbl :=
  fun k =>
    if k = aid then
      (db k).map fun r =>
        { r with status := "ready",
                 cooldown_until := max 0 (min r.cooldown_until now),
                 fail_count := r.fail_count - 1,
                 last_error := none }
    else db k

/-- `_cooldown` (account_pool_manager.py lines 137-152): keyed by account
id only, no status guard. -/
def cooldown (now seconds : ℚ) (reason : String) (aid : String) (db : AccountsTbl) :
    AccountsTbl :=
  fun k =>
    if k = aid then
      (db k).map fun r =>
        { r with status := "ready",
                 cooldown_until := now + max 1 seconds,
                 fail_count := r.fail_count + 1,
                 last_error := some reason }
    else db k

/-- `_quarantine` (account_pool_manager.py lines 155-167): keyed by
account id only, no status guard. -/
def quarantine (reason : String) (aid : String) (db : AccountsTbl) : AccountsTbl :=
  fun k =>
    if k = aid then
      (db k).map fun r => { r with status := "quarantine", last_error := some reason }
    else db k

end Mgr

namespace Pool

/-- The ready-to-leased flip inside `AccountPool.acquire`
(session_pool.py lines 268-271): `UPDATE accounts SET status='leased'
WHERE account_id=?` — keyed by account id only, no status guard. -/
def acquire_mark (aid : String) (db : AccountsTbl) : AccountsTbl :=
  fun k =>
    if k = aid then (db k).map fun r => { r with status := "leased" }
    else db k

end Pool

/-! ## Orchestrator fleet sizing (`worker_orchestrator.py` lines 362-407,
`session_pool.py` lines 354-363) -/

namespace Orch

/-- The count `health_report()` returns for key "ready"
(session_pool.py lines 354-363 group the whole table by `status`): every
row whose status is the string "ready", cooling or not. -/
def ready_count (rows : List Pool.AccountRow) : ℕ :=
  (rows.filter fun r => r.status == "ready").length

/-- Eligibility as the selection queries use it (session_pool.py line 257,
account_pool_manager.py line 272): status ready and cooldown expired. -/
def eligible_count (now : ℚ) (rows : List Pool.AccountRow) : ℕ :=
  (rows.filter fun r => r.status == "ready" && decide (r.cooldown_until ≤ now)).length

/-- `target_workers = max(0, int(ready * 0.75))` (worker_orchestrator.py
line 375); on a natural `ready` the float product is exact and `int`
truncation is the floor, so this is `3 * ready / 4` in ℕ. -/
def target_workers (ready : ℕ) : ℕ := 3 * ready / 4

/-- One reconciliation step of `orchestrate` (worker_orchestrator.py lines
379-401): spawn `target - current` fresh ids when below target, then
cancel the first `current - target` registry entries (Python dict
iteration order is insertion order) when above it. -/
def reconcile (target : ℕ) (workers : List ℕ) (next_id : ℕ) : List ℕ :=
  let grown :=
    if workers.length < target then
      workers ++ (List.range (target - workers.length)).map (fun i => next_id + i)
    else workers
  if target < grown.length then grown.drop (grown.length - target) else grown

end Orch

/-! ## Job runtime state (`worker_orchestrator.py` lines 126-153, 281-336) -/

namespace JobState

/-- `ORCH_JOB_COOLDOWN_MIN` default (worker_orchestrator.py line 80). -/
def JOB_COOLDOWN_MIN : ℚ := 1200

/-- `ORCH_JOB_COOLDOWN_MAX` default (worker_orchestrator.py line 81). -/
def JOB_COOLDOWN_MAX : ℚ := 1800

/-- One job's runtime state record in `job_state.json`. -/
structure JobSt where
  last_run_ts : ℚ
  next_eligible_ts : ℚ
deriving DecidableEq

/-- The `job_state` map, `job_id → {last_run_ts, next_eligible_ts}`. -/
def JobStateMap : Type := String → Option JobSt

/-- `_mark_job_cooldown` (worker_orchestrator.py lines 148-153): both
fields of the entry are overwritten; `u` stands for the draw
`random.randint(JOB_COOLDOWN_MIN, JOB_COOLDOWN_MAX)` (line 133). -/
def mark_job_cooldown (now u : ℚ) (jid : String) (st : JobStateMap) : JobStateMap :=
  fun k => if k = jid then some ⟨now, now + u⟩ else st k

/-- The job-state effect of one `worker_task` run of a job
(worker_orchestrator.py lines 282-336): the success branch (lines 289-290)
marks the cooldown and saves; the `except` branch (lines 308-336) performs
no job-state mutation at all. -/
def worker_run_job_state (ok : Bool) (now u : ℚ) (jid : String) (st : JobStateMap) :
    JobStateMap :=
  if ok then mark_job_cooldown now u jid st else st

/-- The pair of files `_save_json` touches: the real path and its `.tmp`
sibling. -/
structure FS where
  mainFile : Option String
  tmpFile : Option String
deriving DecidableEq

/-- `tmp.write_text(...)` (worker_orchestrator.py line 129). -/
def write_tmp (fs : FS) (data : String) : FS :=
  { fs with tmpFile := some data }

/-- `tmp.replace(path)` (worker_orchestrator.py line 130): the rename. -/
def rename_tmp (fs : FS) : FS :=
  match fs.tmpFile with
  | some d => ⟨some d, none⟩
  | none => fs

/-- `_save_json` (worker_orchestrator.py lines 126-130): write the temp
file, then rename it over the original. -/
def save_json (fs : FS) (data : String) : FS :=
  rename_tmp (write_tmp fs data)

end JobState

/-! ## Token-bucket rate limiter (`rate_limiter.py`) -/

namespace RateLimiter

/-- One row of the `buckets` table (rate_limiter.py lines 42-49). -/
structure Bucket where
  capacity : ℚ
  tokens : ℚ
  refill_rate : ℚ
  updated_at : ℚ
deriving DecidableEq

/-- The refill computation of `_try_acquire_once` (rate_limiter.py lines
107-109): elapsed time clamped at 0, tokens clamped at capacity. -/
def refilled (b : Bucket) (now : ℚ) : ℚ :=
  min b.capacity (b.tokens + b.refill_rate * max 0 (now - b.updated_at))

/-- The default row `_try_acquire_once` inserts for a missing bucket
(rate_limiter.py line 100). -/
def defaultBucket (now : ℚ) : Bucket := ⟨5, 5, 5, now⟩

/-- `_try_acquire_once` (rate_limiter.py lines 87-127) acting on the
bucket's row: read (or insert the default), refill, deduct when covered;
in both outcomes the row is written back with `updated_at = now`. -/
def try_acquire_once (row : Option Bucket) (now req : ℚ) : Bool × Bucket :=
  let b := row.getD (defaultBucket now)
  let cur := refilled b now
  if req ≤ cur then (true, ⟨b.capacity, cur - req, b.refill_rate, now⟩)
  else (false, ⟨b.capacity, cur, b.refill_rate, now⟩)

/-- `ensure_bucket` (rate_limiter.py lines 53-70): insert a full bucket
when absent, leave an existing row untouched. -/
def ensure_bucket (row : Option Bucket) (now cap refill : ℚ) : Bucket :=
  match row with
  | some b => b
  | none => ⟨cap, cap, refill, now⟩

/-- The polling loop of `acquire` (rate_limiter.py lines 72-85), as a
timed small-step run: an attempt started at time `t` takes `dur` seconds
and succeeds when `tryR t` is true; after a failed attempt the deadline is
checked and, if not reached, the loop sleeps 0.1 s before the next
attempt.  Fuel bounds the number of iterations; the result carries the
return value and the time of return. -/
def acquire_loop (deadline : ℚ) (tryR : ℚ → Bool) (dur : ℚ) :
    ℕ → ℚ → Option (Bool × ℚ)
  | 0, _ => none
  | fuel + 1, t =>
    let now := t + dur
    if tryR t then some (true, now)
    else if deadline ≤ now then some (false, now)
    else acquire_loop deadline tryR dur fuel (now + 1/10)

end RateLimiter

/-! ## `AccountPool.add_account` (`session_pool.py` lines 197-225) -/

namespace Pool

/-- Credential payload (session_pool.py lines 19-23). -/
structure Cred where
  client_id : String
  client_secret : String
  username : String
  password : String
deriving DecidableEq

/-- A full `accounts` row (session_pool.py lines 163-176). -/
structure AccountRec where
  client_id : String
  client_secret : String
  username : String
  password : String
  status : String
  cooldown_until : ℚ
  fail_count : ℕ
  last_error : Option String
  proxy_id : Option String
deriving DecidableEq

/-- The full `accounts` table keyed by `account_id`. -/
def AccountsFull : Type := String → Option AccountRec

/-- `add_account` (session_pool.py lines 197-225): `INSERT OR REPLACE`
whose non-credential columns are `COALESCE((SELECT ... FROM accounts WHERE
account_id=?), default)` — the credential columns are overwritten and the
rest are taken from the existing row when there is one. -/
def add_account (aid : String) (cred : Cred) (db : AccountsFull) : AccountsFull :=
  let newRow : AccountRec :=
    { client_id := cred.client_id
      client_secret := cred.client_secret
      username := cred.username
      password := cred.password
      status := match db aid with | some r => r.status | none => "ready"
      cooldown_until := match db aid with | some r => r.cooldown_until | none => 0
      fail_count := match db aid with | some r => r.fail_count | none => 0
      last_error := match db aid with | some r => r.last_error | none => none
      proxy_id := match db aid with | some r => r.proxy_id | none => none }
  fun k => if k = aid then some newRow else db k

end Pool

/-! ## Job queue (`job_queue.py`) -/

namespace JobQueue

/-- A queued job (job_queue.py lines 13-40); the free-form payload is kept
opaque as its JSON text. -/
structure QJob where
  id : String
  weight : ℚ
  payload : String
  attempts : ℕ
  enqueued_at : ℚ
deriving DecidableEq

/-- The persisted `{queue, inflight}` document (job_queue.py lines 44-52). -/
structure QState where
  queue : List QJob
  inflight : List (String × QJob)
deriving DecidableEq

/-- Python `job_id in data["inflight"]`. -/
def hasKey (jid : String) (l : List (String × QJob)) : Bool :=
  l.any fun p => p.1 == jid

/-- Python `del inflight[job_id]`. -/
def removeKey (jid : String) (l : List (String × QJob)) : List (String × QJob) :=
  l.filter fun p => !(p.1 == jid)

/-- Look up the inflight entry for a job id. -/
def getKey (jid : String) (l : List (String × QJob)) : Option QJob :=
  (l.find? fun p => p.1 == jid).map fun p => p.2

/-- `JobQueue.ack` (job_queue.py lines 136-143).  The third component
records whether `_save` was called, i.e. whether the file was written. -/
def ack (s : QState) (jid : String) : Bool × QState × Bool :=
  if hasKey jid s.inflight then
    (true, { s with inflight := removeKey jid s.inflight }, true)
  else (false, s, false)

/-- `JobQueue.nack` (job_queue.py lines 145-159): when the id is inflight,
remove it, optionally re-enqueue with `attempts+1` and
`enqueued_at = now + max(0, backoff)`, and save; otherwise return False
without saving. -/
def nack (s : QState) (jid : String) (requeue : Bool) (backoff now : ℚ) :
    Bool × QState × Bool :=
  if hasKey jid s.inflight then
    match getKey jid s.inflight with
    | some job =>
      let inflight2 := removeKey jid s.inflight
      if requeue then
        (true,
          { queue := s.queue ++
              [{ job with attempts := job.attempts + 1,
                          enqueued_at := now + max 0 backoff }],
            inflight := inflight2 }, true)
      else (true, { s with inflight := inflight2 }, true)
    | none => (false, s, false)
  else (false, s, false)

end JobQueue

/-! ## Worker checkpoint store (`worker_checkpoint_store.py`) against the
accounts database schema (`session_pool.py` lines 159-188) -/

namespace Ckpt

/-- One row of the worker `checkpoints` table the store expects
(worker_checkpoint_store.py lines 28-37). -/
structure CheckpointRow where
  worker_id : String
  account_id : Option String
  last_subreddit : Option String
  last_post_id : Option String
  last_comment_id : Option String
  updated_at : ℚ
deriving DecidableEq

/-- The accounts database file as the two loops share it: which tables
exist, and the worker-checkpoint table's contents when that table exists. -/
structure AccountsDB where
  has_accounts : Bool
  has_proxies : Bool
  checkpoints : Option (String → Option CheckpointRow)

/-- A database file before any schema bootstrap. -/
def empty_db : AccountsDB := ⟨false, false, none⟩

/-- `AccountPool._init_schema` (session_pool.py lines 159-188): it creates
(IF NOT EXISTS) the `accounts` and `proxies` tables and nothing else — in
particular no worker `checkpoints` table. -/
def init_schema (db : AccountsDB) : AccountsDB :=
  { db with has_accounts := true, has_proxies := true }

/-- `WorkerCheckpointStore.upsert` (worker_checkpoint_store.py lines
50-78): an `INSERT ... ON CONFLICT(worker_id) DO UPDATE` against the
`checkpoints` table; when that table does not exist in the database the
statement fails (sqlite3.OperationalError). -/
def upsert (db : AccountsDB) (row : CheckpointRow) : Except String AccountsDB :=
  match db.checkpoints with
  | none => .error "no such table: checkpoints"
  | some t =>
    .ok { db with
          checkpoints := some fun k => if k = row.worker_id then some row else t k }

/-- `WorkerCheckpointStore.get` (worker_checkpoint_store.py lines 80-102). -/
def get (db : AccountsDB) (wid : String) : Except String (Option CheckpointRow) :=
  match db.checkpoints with
  | none => .error "no such table: checkpoints"
  | some t => .ok (t wid)

end Ckpt

/-! ## Helper lemmas -/

theorem lowerStr_tmr : lowerStr "Too Many Requests" = "too many requests" := by decide

theorem lowerStr_rl : lowerStr "RATELIMIT" = "ratelimit" := by decide

theorem lowerStr_429 : lowerStr "429" = "429" := by decide

theorem reconcile_length (target : ℕ) (ws : List ℕ) (n : ℕ) :
    (Orch.reconcile target ws n).length = target := by
  unfold Orch.reconcile
  by_cases h : ws.length < target
  · simp only [if_pos h, List.length_append, List.length_map, List.length_range]
    have hlen : ws.length + (target - ws.length) = target := by omega
    simp [hlen]
  · simp only [if_neg h]
    by_cases h2 : target < ws.length
    · simp only [if_pos h2, List.length_drop]
      omega
    · simp only [if_neg h2]
      omega

theorem ready_count_map (rows : List Pool.AccountRow) (f : Pool.AccountRow → ℚ) :
    Orch.ready_count (rows.map fun r => { r with cooldown_until := f r })
      = Orch.ready_count rows := by
  induction rows with
  | nil => rfl
  | cons r t ih =>
    simp only [List.map_cons, Orch.ready_count, List.filter_cons] at ih ⊢
    cases hb : (r.status == "ready") <;> simp [hb, ih]

/-! ## Claim theorems -/

/-- Claim C1 (code bug): after an auth-classified scrape error the worker
quarantines the lease but then still calls `lease.release(success=False)`,
whose unguarded UPDATE flips the row back to `status='ready'` with
`cooldown_until = t2+60` and an incremented fail count — the row does not
end in quarantine, a second post-lease transition is applied on top of the
first, and (third conjunct) a double release is not a no-op on the row. -/
theorem C1_worker_auth_path_unquarantines :
    (Pool.worker_on_error "401 Unauthorized" 100 101 ⟨"leased", 0, 0, none⟩)
        = ⟨"ready", 161, 1, some "auth"⟩
    ∧ Pool.quarantine "auth" ⟨"leased", 0, 0, none⟩
        ≠ Pool.worker_on_error "401 Unauthorized" 100 101 ⟨"leased", 0, 0, none⟩
    ∧ Pool.release true 5 (Pool.release true 5 ⟨"ready", 0, 2, none⟩)
        ≠ Pool.release true 5 ⟨"ready", 0, 2, none⟩ := by
  have h1 : looks_rate_limited "401 Unauthorized" = false := by decide
  have h2 : looks_auth_ban "401 Unauthorized" = true := by decide
  refine ⟨?_, ?_, ?_⟩
  · simp [Pool.worker_on_error, Pool.release, Pool.cooldown, Pool.quarantine,
      Pool.cooldown_seconds, h1, h2]
    norm_num
  · simp [Pool.worker_on_error, Pool.release, Pool.cooldown, Pool.quarantine,
      Pool.cooldown_seconds, h1, h2]
  · simp [Pool.release, Pool.cooldown_seconds]

/-- Claim C2 counterexample: a failed (exception-raising) run performs no
job-state mutation at all, so the entry does not become
`{last_run_ts = now, next_eligible_ts = now + u}` as the claim requires
of every run. -/
theorem C2_error_path_leaves_job_state :
    (JobState.worker_run_job_state false 100 1500 "j" fun _ => none) "j" = none
    ∧ (JobState.worker_run_job_state false 100 1500 "j" fun _ => none) "j"
        ≠ some ⟨100, 100 + 1500⟩ := by
  decide

/-- Claim C2 (amended): only a successful run updates the job's runtime
state, to `last_run_ts = now` and `next_eligible_ts = now + u` with `u`
drawn from the inclusive range [ORCH_JOB_COOLDOWN_MIN, ORCH_JOB_COOLDOWN_MAX]
(defaults 1200, 1800), and the state file is persisted by writing a temp
file and renaming it over the original; a failed run leaves the job state
untouched. -/
theorem C2_job_cooldown_on_success (now u : ℚ) (jid : String)
    (st : JobState.JobStateMap) (fs : JobState.FS) (data : String)
    (h1 : JobState.JOB_COOLDOWN_MIN ≤ u) (h2 : u ≤ JobState.JOB_COOLDOWN_MAX) :
    (JobState.worker_run_job_state true now u jid st) jid = some ⟨now, now + u⟩
    ∧ now + JobState.JOB_COOLDOWN_MIN ≤ now + u
    ∧ now + u ≤ now + JobState.JOB_COOLDOWN_MAX
    ∧ JobState.worker_run_job_state false now u jid st = st
    ∧ JobState.save_json fs data = ⟨some data, none⟩ := by
  refine ⟨?_, by linarith, by linarith, rfl, rfl⟩
  simp [JobState.worker_run_job_state, JobState.mark_job_cooldown]

/-- Witness for C2: a concrete successful and failed run with u = 1500. -/
theorem C2_job_cooldown_on_success_witness :
    (JobState.worker_run_job_state true 0 1500 "j" fun _ => none) "j"
        = some ⟨0, 0 + 1500⟩
    ∧ 0 + JobState.JOB_COOLDOWN_MIN ≤ 0 + 1500
    ∧ (0 : ℚ) + 1500 ≤ 0 + JobState.JOB_COOLDOWN_MAX
    ∧ JobState.worker_run_job_state false 0 1500 "j" (fun _ => none) = (fun _ => none)
    ∧ JobState.save_json ⟨none, none⟩ "d" = ⟨some "d", none⟩ :=
  C2_job_cooldown_on_success 0 1500 "j" (fun _ => none) ⟨none, none⟩ "d"
    (by norm_num [JobState.JOB_COOLDOWN_MIN]) (by norm_num [JobState.JOB_COOLDOWN_MAX])

/-- Claim C3 counterexample: a row whose status is `leased` at the moment
of the health manager's cooldown write IS mutated (its status is even
flipped back to `ready`), because the UPDATE is keyed by account id alone;
the claimed `WHERE status='ready'` constraint is not in the code. -/
theorem C3_leased_row_mutated_by_health_write :
    (Mgr.cooldown 100 60 "network" "a"
        fun k => if k = "a" then some ⟨"leased", 0, 0, none⟩ else none) "a"
        = some ⟨"ready", 160, 1, some "network"⟩
    ∧ (Mgr.cooldown 100 60 "network" "a"
        fun k => if k = "a" then some ⟨"leased", 0, 0, none⟩ else none) "a"
        ≠ some ⟨"leased", 0, 0, none⟩ := by
  constructor
  · simp [Mgr.cooldown]
    norm_num [max_eq_right]
  · simp [Mgr.cooldown]

/-- Claim C3 (amended): the health manager's success, cooldown and
quarantine updates and the pool's ready-to-leased flip are keyed by
`account_id` alone, with no `status='ready'` WHERE guard: they leave every
other row unchanged, and they mutate the targeted row whatever its current
status is (only the health manager's candidate snapshot, taken before the
probe, restricts which ids are targeted). -/
theorem C3_writes_keyed_by_account_id (db : AccountsTbl) (aid k : String)
    (now secs : ℚ) (reason : String) :
    (k ≠ aid →
      Mgr.update_on_success now aid db k = db k
      ∧ Mgr.cooldown now secs reason aid db k = db k
      ∧ Mgr.quarantine reason aid db k = db k
      ∧ Pool.acquire_mark aid db k = db k)
    ∧ (∀ r, db aid = some r →
        Mgr.update_on_success now aid db aid
          = some { r with
                   status := "ready"
                   cooldown_until := max 0 (min r.cooldown_until now)
                   fail_count := r.fail_count - 1
                   last_error := none }
        ∧ Mgr.cooldown now secs reason aid db aid
          = some { r with
                   status := "ready"
                   cooldown_until := now + max 1 secs
                   fail_count := r.fail_count + 1
                   last_error := some reason }
        ∧ Pool.acquire_mark aid db aid = some { r with status := "leased" }
        ∧ Mgr.quarantine reason aid db aid
          = some { r with status := "quarantine", last_error := some reason }) := by
  constructor
  · intro hk
    refine ⟨?_, ?_, ?_, ?_⟩ <;>
      simp [Mgr.update_on_success, Mgr.cooldown, Mgr.quarantine, Pool.acquire_mark, hk]
  · intro r hr
    refine ⟨?_, ?_, ?_, ?_⟩ <;>
      simp [Mgr.update_on_success, Mgr.cooldown, Pool.acquire_mark, Mgr.quarantine, hr]

/-- Witness for C3: concrete single-row table; a foreign key is untouched,
and the targeted leased row is mutated both by the health manager's
success write (set back to ready despite being leased) and by the acquire
mark. -/
theorem C3_writes_keyed_by_account_id_witness :
    Mgr.cooldown 100 60 "network" "a"
        (fun k => if k = "a" then some ⟨"leased", 0, 0, none⟩ else none) "b"
      = (fun k => if k = "a" then some (⟨"leased", 0, 0, none⟩ : Pool.AccountRow) else none) "b"
    ∧ Mgr.update_on_success 100 "a"
        (fun k => if k = "a" then some ⟨"leased", 0, 0, none⟩ else none) "a"
      = some ⟨"ready", 0, 0, none⟩
    ∧ Pool.acquire_mark "a"
        (fun k => if k = "a" then some ⟨"leased", 0, 0, none⟩ else none) "a"
      = some ⟨"leased", 0, 0, none⟩ := by
  have h := C3_writes_keyed_by_account_id
    (fun k => if k = "a" then some ⟨"leased", 0, 0, none⟩ else none) "a" "b" 100 60 "network"
  refine ⟨(h.1 (by decide)).2.1, ?_, ?_⟩
  · have h1 := (h.2 ⟨"leased", 0, 0, none⟩ (by simp)).1
    simpa using h1
  · have h2 := (h.2 ⟨"leased", 0, 0, none⟩ (by simp)).2.2.1
    simpa using h2

/-- Claim C4 (code bug): the accounts database freshly bootstrapped by
`AccountPool._init_schema` has no worker `checkpoints` table (only
`accounts` and `proxies` are created, despite the checkpoint store's
docstring), so the worker's checkpoint upsert and get both fail instead of
succeeding. -/
theorem C4_worker_checkpoint_table_missing :
    Ckpt.upsert (Ckpt.init_schema Ckpt.empty_db)
        ⟨"0", some "acct-1", some "all", none, none, 100⟩
      = .error "no such table: checkpoints"
    ∧ Ckpt.get (Ckpt.init_schema Ckpt.empty_db) "0"
      = .error "no such table: checkpoints" :=
  ⟨rfl, rfl⟩

/-- Claim C5 counterexample: the worker classifies the message "ratelimit"
as rate-limit, but the health manager's probe classifier — whose substring
tests are case-sensitive — classifies the same message as network/transient,
so the two classifiers do not agree on every string (and the probe does not
match /too many requests|ratelimit|429/i case-insensitively). -/
theorem C5_classifiers_disagree_on_ratelimit :
    workerClassify "ratelimit" = ErrClass.rateLimit
    ∧ probeClassify "ratelimit" = ErrClass.network
    ∧ workerClassify "ratelimit" ≠ probeClassify "ratelimit" := by
  decide

/-- Claim C5 (amended): the worker's classifier implements exactly the
claim's case-insensitive classification, while the probe's tests are
case-sensitive substrings ("Too Many Requests", "RATELIMIT", "429" /
"401", "403", "invalid_grant", "Forbidden", "Unauthorized"); every message
the probe classifies as rate-limit is also rate-limit for the worker, but
not conversely. -/
theorem C5_classifier_refinement :
    (∀ msg, workerClassify msg = specClassifyCI msg)
    ∧ (∀ msg, probeClassify msg = ErrClass.rateLimit →
        workerClassify msg = ErrClass.rateLimit) := by
  constructor
  · intro msg
    simp only [workerClassify, specClassifyCI, looks_rate_limited, looks_auth_ban]
    have hb : (strContains (lowerStr msg) "unauthorized" || strContains (lowerStr msg) "forbidden" ||
        strContains (lowerStr msg) "403" || strContains (lowerStr msg) "401" ||
        strContains (lowerStr msg) "invalid_grant")
        = (strContains (lowerStr msg) "unauthorized" || strContains (lowerStr msg) "forbidden" ||
        strContains (lowerStr msg) "401" || strContains (lowerStr msg) "403" ||
        strContains (lowerStr msg) "invalid_grant") := by
      cases strContains (lowerStr msg) "403" <;> cases strContains (lowerStr msg) "401" <;> simp
    simp only [hb]
  · intro msg h
    cases hC : (strContains msg "Too Many Requests" || strContains msg "RATELIMIT" ||
        strContains msg "429") with
    | false =>
      exfalso
      simp only [probeClassify, hC, Bool.false_eq_true, if_false] at h
      cases h2 : (strContains msg "401" || strContains msg "403" ||
          strContains msg "invalid_grant" || strContains msg "Forbidden" ||
          strContains msg "Unauthorized") <;> simp [h2] at h
    | true =>
      have h1 := hC
      simp only [Bool.or_eq_true] at h1
      have hw : looks_rate_limited msg = true := by
        simp only [looks_rate_limited, Bool.or_eq_true]
        rcases h1 with (h | h) | h
        · exact Or.inl (Or.inl
            (by simpa [lowerStr_tmr] using strContains_lower msg "Too Many Requests" h))
        · exact Or.inl (Or.inr
            (by simpa [lowerStr_rl] using strContains_lower msg "RATELIMIT" h))
        · exact Or.inr (by simpa [lowerStr_429] using strContains_lower msg "429" h)
      simp [workerClassify, hw]

/-- Witness for C5: the refinement evaluated at concrete messages. -/
theorem C5_classifier_refinement_witness :
    workerClassify "Forbidden" = specClassifyCI "Forbidden"
    ∧ workerClassify "HTTP 429" = ErrClass.rateLimit :=
  ⟨C5_classifier_refinement.1 "Forbidden",
    C5_classifier_refinement.2 "HTTP 429" (by decide)⟩

/-- Claim C6 counterexample: with 8 accounts whose status is "ready" but
which are all still cooling (cooldown_until = 100 > now = 0), the count of
eligible accounts is 0, so the claim's target floor(0.75 x eligible) is 0;
the code computes its target from the status count alone and arrives at 6. -/
theorem C6_cooling_accounts_counted :
    Orch.target_workers
        (Orch.ready_count (List.replicate 8 ⟨"ready", 100, 0, none⟩)) = 6
    ∧ Orch.eligible_count 0 (List.replicate 8 ⟨"ready", 100, 0, none⟩) = 0
    ∧ Orch.target_workers
        (Orch.eligible_count 0 (List.replicate 8 ⟨"ready", 100, 0, none⟩)) = 0
    ∧ Orch.target_workers
        (Orch.ready_count (List.replicate 8 ⟨"ready", 100, 0, none⟩))
      ≠ Orch.target_workers
        (Orch.eligible_count 0 (List.replicate 8 ⟨"ready", 100, 0, none⟩)) := by
  decide

/-- Claim C6 (amended): on every supervisor tick the worker-fleet target is
floor(0.75 x the number of accounts whose status is "ready"), cooling or
not (the cooldown_until column does not influence the count), and the
reconciliation step brings the registry to exactly that target; with 8
ready-status accounts the target is 6. -/
theorem C6_fleet_target_from_status_counts :
    (∀ (rows : List Pool.AccountRow) (ws : List ℕ) (n : ℕ),
        (Orch.reconcile (Orch.target_workers (Orch.ready_count rows)) ws n).length
          = Orch.target_workers (Orch.ready_count rows))
    ∧ (∀ (rows : List Pool.AccountRow) (f : Pool.AccountRow → ℚ),
        Orch.target_workers
            (Orch.ready_count (rows.map fun r => { r with cooldown_until := f r }))
          = Orch.target_workers (Orch.ready_count rows))
    ∧ Orch.target_workers 8 = 6 :=
  ⟨fun rows ws n => reconcile_length _ ws n,
    fun rows f => by rw [ready_count_map], by decide⟩

/-- Claim C7: every single acquire attempt and every ensure operation
leaves the stored bucket row with 0 <= tokens <= capacity (given a
well-formed prior row and a non-negative request); the attempt refills to
min(capacity, tokens + refill_rate * max(0, now - updated_at)) before any
deduction, deducts exactly when the refilled amount covers the request,
and on an unsatisfied request still persists the refilled token count and
the new updated_at; ensure_bucket leaves an existing row untouched. -/
theorem C7_bucket_invariant (row : Option RateLimiter.Bucket) (now req cap refill : ℚ)
    (hreq : 0 ≤ req)
    (hrow : ∀ b, row = some b → 0 ≤ b.tokens ∧ b.tokens ≤ b.capacity ∧ 0 ≤ b.refill_rate)
    (hcap : 0 ≤ cap) :
    (0 ≤ (RateLimiter.try_acquire_once row now req).2.tokens
      ∧ (RateLimiter.try_acquire_once row now req).2.tokens
          ≤ (RateLimiter.try_acquire_once row now req).2.capacity)
    ∧ ((RateLimiter.try_acquire_once row now req).1 = true
        ↔ req ≤ RateLimiter.refilled (row.getD (RateLimiter.defaultBucket now)) now)
    ∧ ((RateLimiter.try_acquire_once row now req).1 = false →
        (RateLimiter.try_acquire_once row now req).2.tokens
          = RateLimiter.refilled (row.getD (RateLimiter.defaultBucket now)) now
        ∧ (RateLimiter.try_acquire_once row now req).2.updated_at = now)
    ∧ (0 ≤ (RateLimiter.ensure_bucket row now cap refill).tokens
        ∧ (RateLimiter.ensure_bucket row now cap refill).tokens
            ≤ (RateLimiter.ensure_bucket row now cap refill).capacity)
    ∧ (∀ b, row = some b → RateLimiter.ensure_bucket row now cap refill = b) := by
  have hbp : 0 ≤ (row.getD (RateLimiter.defaultBucket now)).tokens
      ∧ (row.getD (RateLimiter.defaultBucket now)).tokens
          ≤ (row.getD (RateLimiter.defaultBucket now)).capacity
      ∧ 0 ≤ (row.getD (RateLimiter.defaultBucket now)).refill_rate := by
    cases row with
    | none =>
      refine ⟨by norm_num [RateLimiter.defaultBucket],
        by norm_num [RateLimiter.defaultBucket], by norm_num [RateLimiter.defaultBucket]⟩
    | some b0 => simpa using hrow b0 rfl
  obtain ⟨hb1, hb2, hb3⟩ := hbp
  have hcap0 : 0 ≤ (row.getD (RateLimiter.defaultBucket now)).capacity := le_trans hb1 hb2
  have hcur0 : 0 ≤ RateLimiter.refilled (row.getD (RateLimiter.defaultBucket now)) now := by
    unfold RateLimiter.refilled
    exact le_min hcap0 (add_nonneg hb1 (mul_nonneg hb3 (le_max_left 0 _)))
  have hcurcap : RateLimiter.refilled (row.getD (RateLimiter.defaultBucket now)) now
      ≤ (row.getD (RateLimiter.defaultBucket now)).capacity := min_le_left _ _
  have hens1 : 0 ≤ (RateLimiter.ensure_bucket row now cap refill).tokens
      ∧ (RateLimiter.ensure_bucket row now cap refill).tokens
          ≤ (RateLimiter.ensure_bucket row now cap refill).capacity := by
    cases row with
    | none => exact ⟨by simpa [RateLimiter.ensure_bucket] using hcap,
        by simp [RateLimiter.ensure_bucket]⟩
    | some b0 =>
      obtain ⟨x1, x2, _⟩ := hrow b0 rfl
      exact ⟨by simpa [RateLimiter.ensure_bucket] using x1,
        by simpa [RateLimiter.ensure_bucket] using x2⟩
  have hens2 : ∀ b0, row = some b0 → RateLimiter.ensure_bucket row now cap refill = b0 := by
    rintro b0 rfl
    rfl
  by_cases hle : req ≤ RateLimiter.refilled (row.getD (RateLimiter.defaultBucket now)) now
  · have heq : RateLimiter.try_acquire_once row now req
        = (true, ⟨(row.getD (RateLimiter.defaultBucket now)).capacity,
            RateLimiter.refilled (row.getD (RateLimiter.defaultBucket now)) now - req,
            (row.getD (RateLimiter.defaultBucket now)).refill_rate, now⟩) := by
      simp only [RateLimiter.try_acquire_once]
      rw [if_pos hle]
    rw [heq]
    dsimp only
    refine ⟨⟨sub_nonneg.mpr hle, le_trans (sub_le_self _ hreq) hcurcap⟩,
      by simp [hle], by simp, hens1, hens2⟩
  · have heq : RateLimiter.try_acquire_once row now req
        = (false, ⟨(row.getD (RateLimiter.defaultBucket now)).capacity,
            RateLimiter.refilled (row.getD (RateLimiter.defaultBucket now)) now,
            (row.getD (RateLimiter.defaultBucket now)).refill_rate, now⟩) := by
      simp only [RateLimiter.try_acquire_once]
      rw [if_neg hle]
    rw [heq]
    push_neg at hle
    dsimp only
    refine ⟨⟨hcur0, hcurcap⟩, by simpa using not_le.mpr hle, fun _ => ⟨rfl, rfl⟩,
      hens1, hens2⟩

/-- Witness for C7: a concrete bucket (capacity 10, 3 tokens, refill 2)
attempts a 2-token acquire at time 1. -/
theorem C7_bucket_invariant_witness :
    0 ≤ (RateLimiter.try_acquire_once (some ⟨10, 3, 2, 0⟩) 1 2).2.tokens
    ∧ (RateLimiter.try_acquire_once (some ⟨10, 3, 2, 0⟩) 1 2).2.tokens
        ≤ (RateLimiter.try_acquire_once (some ⟨10, 3, 2, 0⟩) 1 2).2.capacity :=
  (C7_bucket_invariant (some ⟨10, 3, 2, 0⟩) 1 2 7 3 (by norm_num)
    (by
      intro b hb
      injection hb with hb2
      subst hb2
      exact ⟨by norm_num, by norm_num, by norm_num⟩)
    (by norm_num)).1

/-- Claim C8 counterexample: with timeout 0.05 s (deadline 1/20) and an
attempt that fails at t = 0 and succeeds at t = 1/10, the loop sleeps,
retries the bucket at 1/10 — after the deadline — and returns true at
time 1/10 > 1/20, so acquire does wait past now + timeout. -/
theorem C8_returns_after_deadline :
    RateLimiter.acquire_loop (1/20) (fun t => decide ((1:ℚ)/10 ≤ t)) 0 5 0
      = some (true, 1/10)
    ∧ ¬((1:ℚ)/10 ≤ 1/20) := by
  constructor
  · norm_num [RateLimiter.acquire_loop]
  · norm_num

/-- Claim C8 (amended): the deadline is checked only after each failed
attempt; a false return happens at the first post-attempt instant at or
past the deadline, which is at least the deadline and at most one poll
interval (0.1 s) plus one attempt duration beyond it — but a true return
may occur after the deadline. -/
theorem C8_false_return_bounded (deadline : ℚ) (tryR : ℚ → Bool) (dur : ℚ) (fuel : ℕ) :
    ∀ t tEnd : ℚ, t ≤ deadline + 1/10 →
      RateLimiter.acquire_loop deadline tryR dur fuel t = some (false, tEnd) →
      deadline ≤ tEnd ∧ tEnd ≤ deadline + 1/10 + dur := by
  induction fuel with
  | zero =>
    intro t tEnd ht h
    simp [RateLimiter.acquire_loop] at h
  | succ n ih =>
    intro t tEnd ht h
    simp only [RateLimiter.acquire_loop] at h
    by_cases h1 : tryR t = true
    · simp [h1] at h
    · simp only [Bool.not_eq_true] at h1
      simp only [h1, Bool.false_eq_true, if_false] at h
      by_cases h2 : deadline ≤ t + dur
      · simp only [if_pos h2, Option.some.injEq, Prod.mk.injEq, true_and] at h
        subst h
        exact ⟨h2, by linarith⟩
      · simp only [if_neg h2] at h
        push_neg at h2
        exact ih (t + dur + 1/10) tEnd (by linarith) h

/-- Witness for C8: an always-failing attempt with deadline 1/20 returns
false at time 1/10, inside the proven bounds. -/
theorem C8_false_return_bounded_witness :
    (1 : ℚ)/20 ≤ 1/10 ∧ (1 : ℚ)/10 ≤ 1/20 + 1/10 + 0 :=
  C8_false_return_bounded (1/20) (fun _ => false) 0 3 0 (1/10) (by norm_num)
    (by norm_num [RateLimiter.acquire_loop])

/-- Claim C9: when a row for the id already exists, add_account replaces
only the four credential fields and preserves status, cooldown_until,
fail_count, last_error and proxy_id; consequently calling add_account
twice with the same arguments leaves the table exactly as one call does. -/
theorem C9_add_account_idempotent (db : Pool.AccountsFull) (aid : String)
    (cred : Pool.Cred) :
    (∀ k, Pool.add_account aid cred (Pool.add_account aid cred db) k
        = Pool.add_account aid cred db k)
    ∧ (∀ r, db aid = some r →
        Pool.add_account aid cred db aid
          = some { r with
                   client_id := cred.client_id
                   client_secret := cred.client_secret
                   username := cred.username
                   password := cred.password }) := by
  constructor
  · intro k
    by_cases hk : k = aid
    · subst hk
      simp [Pool.add_account]
    · simp [Pool.add_account, hk]
  · intro r hr
    simp [Pool.add_account, hr]

/-- Witness for C9: re-adding an existing leased account with new
credentials preserves all non-credential columns. -/
theorem C9_add_account_idempotent_witness :
    Pool.add_account "a" ⟨"ci2", "cs2", "u2", "p2"⟩
        (fun k => if k = "a" then
          some ⟨"ci", "cs", "u", "p", "leased", 5, 2, some "auth", some "p1"⟩ else none) "a"
      = some ⟨"ci2", "cs2", "u2", "p2", "leased", 5, 2, some "auth", some "p1"⟩ := by
  have h := (C9_add_account_idempotent
      (fun k => if k = "a" then
        some ⟨"ci", "cs", "u", "p", "leased", 5, 2, some "auth", some "p1"⟩ else none)
      "a" ⟨"ci2", "cs2", "u2", "p2"⟩).2
      ⟨"ci", "cs", "u", "p", "leased", 5, 2, some "auth", some "p1"⟩ (by simp)
  simpa using h

/-- Claim C10: when the job id is not in the inflight map, both ack and
nack return false, leave the state unchanged and perform no save (the
persisted file is not written). -/
theorem C10_ack_nack_missing_id_noop (s : JobQueue.QState) (jid : String)
    (requeue : Bool) (backoff now : ℚ)
    (h : JobQueue.hasKey jid s.inflight = false) :
    JobQueue.ack s jid = (false, s, false)
    ∧ JobQueue.nack s jid requeue backoff now = (false, s, false) := by
  constructor
  · simp [JobQueue.ack, h]
  · simp [JobQueue.nack, h]

/-- Witness for C10: ack and nack of an id on an empty inflight map. -/
theorem C10_ack_nack_missing_id_noop_witness :
    JobQueue.ack ⟨[], []⟩ "x" = (false, ⟨[], []⟩, false)
    ∧ JobQueue.nack ⟨[], []⟩ "x" true 5 100 = (false, ⟨[], []⟩, false) :=
  C10_ack_nack_missing_id_noop ⟨[], []⟩ "x" true 5 100 (by decide)
